import Mathlib

/-!
Verification development for the gioui-dialog repository.

The repository implements four modal dialog widgets on top of the Gio
immediate-mode GUI toolkit:

* `InputDialog`   — text input with optional validator
                    (internal/dialog/input.go, Go type `inputDialog`);
* `SingleSelectDialog` — single-selection list with optional free-text entry
                    (single-select revision of internal/dialog/select.go,
                    Go type `selectDialog` with `selectedIndex`);
* `MultiSelectDialog`  — multi-selection checkbox list with optional
                    free-text entry (multi-select revision of
                    internal/dialog/select.go, Go type `selectDialog`
                    with `checkboxes`);
* `BaseDialog`    — plain OK/Cancel confirmation dialog (Go type `BaseDialog`).

Each dialog runs an event loop (`Show`) that consumes toolkit events
(frame events carrying button clicks and widget-state updates, key events,
and a destroy event carrying the window system's termination error) and
returns `(result, canceled, error)`.

Modelling conventions:

* Go `error` values are modelled as `Option String` (`none` = `nil`).
* Go slices are modelled as `List`; a `nil` slice and an empty slice are
  both modelled as `[]` (no claim distinguishes them).
* Widget state mutated by the toolkit during a frame (editor text, checkbox
  toggles, choice-button clicks) is carried on the frame event; the step
  functions apply the handlers in the order the Go code runs them:
  cancel-button check, OK-button check, then the layout pass (which is
  where choice clicks, checkbox toggles and editor input are processed).
* `Show` is modelled as a fold of the step function over a finite event
  trace, returning `none` when the trace ends while the loop would still
  be blocked on the next event.
* `inputDialog.Show` executes `w.Perform(system.ActionClose)`
  unconditionally after its OK/Cancel/key handlers — for the OK trigger
  even when the validator has just rejected the text — so the input
  dialog's step function returns that close request as an explicit flag;
  the window system answers a close request by delivering a destroy event.
  The other three loops also request the close in those branches, but
  there each branch's handler has already committed its final result
  state, so for them the flag is not modelled.
-/

/-- Key names relevant to the dialogs' key handling
(`key.NameEscape`, `key.NameReturn`, anything else). -/
inductive KeyName where
  | escape
  | enter
  | other
deriving DecidableEq, Repr

/-- Key event state (`key.Press` / `key.Release`). -/
inductive KeyState where
  | press
  | release
deriving DecidableEq, Repr

/-- A Go `error`: `none` is Go's `nil` error. -/
abbrev GoError := Option String

/-! ## Input dialog (internal/dialog/input.go) -/

/-- Shallow embedding of the Go struct `inputDialog`: configuration fields,
the two result fields `result` and `canceled`, the editor text
(`textInput.Text()`), and the completion flag `done`.
The optional validator `Validate func(string) error` becomes
`Option (String → GoError)` (`none` = `nil` function). -/
structure InputDialog where
  Title : String
  Label : String
  Description : String
  DefaultText : String
  Validate : Option (String → GoError)
  result : String
  canceled : Bool
  textInputText : String
  done : Bool

/-- `NewInputDialog`: zero-valued result state, editor preloaded with the
default text. -/
def NewInputDialog (title label description defaultText : String)
    (validate : Option (String → GoError)) : InputDialog :=
  { Title := title
    Label := label
    Description := description
    DefaultText := defaultText
    Validate := validate
    result := ""
    canceled := false
    textInputText := defaultText
    done := false }

/-- `inputDialog.handleOK`: read the editor text; if a validator is present
and rejects it, return with no state change; otherwise commit the text as
the result and clear the canceled flag. -/
def InputDialog.handleOK (d : InputDialog) : InputDialog :=
  let text := d.textInputText
  match d.Validate with
  | some v =>
    match v text with
    | some _ => d
    | none => { d with result := text, canceled := false }
  | none => { d with result := text, canceled := false }

/-- `inputDialog.handleCancel`: clear the result and set the canceled flag. -/
def InputDialog.handleCancel (d : InputDialog) : InputDialog :=
  { d with result := "", canceled := true }

/-- Events consumed by `inputDialog.Show`: a frame event (carrying whether
the Cancel/OK buttons were clicked this frame and the editor text after this
frame's layout pass), a key event, or the window's destroy event carrying
the termination error. -/
inductive InputEvent where
  | frame (cancelClicked okClicked : Bool) (newText : String)
  | key (name : KeyName) (state : KeyState)
  | destroy (err : GoError)

/-- One iteration of the `inputDialog.Show` event loop: returns the updated
dialog, whether this event's handling executed
`w.Perform(system.ActionClose)` — the Go code requests the close
unconditionally right after the corresponding handler, for the OK trigger
even when the validator has just rejected the text — and
`some (result, canceled, err)` when the loop returns. Handlers run in
source order: cancel click, OK click, then the layout pass (editor text
update); Escape-press cancels, Return-press confirms; the destroy event
sets `done` and returns the current result, canceled flag and the event's
error. -/
def InputDialog.step (d : InputDialog) (e : InputEvent) :
    InputDialog × Bool × Option (String × Bool × GoError) :=
  match e with
  | .frame cancelClicked okClicked newText =>
    let d := if cancelClicked then d.handleCancel else d
    let d := if okClicked then d.handleOK else d
    let d := { d with textInputText := newText }
    (d, cancelClicked || okClicked, none)
  | .key name state =>
    let d := if name = .escape ∧ state = .press then d.handleCancel else d
    let d := if name = .enter ∧ state = .press then d.handleOK else d
    (d, decide (name = .escape ∧ state = .press)
      || decide (name = .enter ∧ state = .press), none)
  | .destroy err =>
    ({ d with done := true }, false, some (d.result, d.canceled, err))

/-- `inputDialog.Show` over a finite event trace: loop while `¬done`,
returning on a destroy event (or with a `nil` error when `done` was set
without a destroy event, which never happens for this dialog kind). The
loop itself does not act on a step's close-request flag: the Go
`w.Perform(system.ActionClose)` only asks the window system to close, and
the loop keeps consuming events until the destroy event arrives. -/
def InputDialog.show (d : InputDialog) :
    List InputEvent → Option (String × Bool × GoError)
  | [] => if d.done then some (d.result, d.canceled, none) else none
  | e :: es =>
    if d.done then some (d.result, d.canceled, none)
    else
      match d.step e with
      | (_, _, some r) => some r
      | (d', _, none) => d'.show es

/-! ## Base dialog (BaseDialog) -/

/-- Shallow embedding of the Go struct `BaseDialog`: result fields
`confirmed` and `canceled`, completion flag `done`. -/
structure BaseDialog where
  Width : Int
  Height : Int
  Title : String
  Label : String
  Description : String
  confirmed : Bool
  canceled : Bool
  done : Bool

/-- `NewBaseDialog`: width/height default to 400×180 when non-positive;
zero-valued result state. -/
def NewBaseDialog (width height : Int) (title label description : String) :
    BaseDialog :=
  { Width := if width ≤ 0 then 400 else width
    Height := if height ≤ 0 then 180 else height
    Title := title
    Label := label
    Description := description
    confirmed := false
    canceled := false
    done := false }

/-- `BaseDialog.handleOK`: confirmed, not canceled. -/
def BaseDialog.handleOK (b : BaseDialog) : BaseDialog :=
  { b with confirmed := true, canceled := false }

/-- `BaseDialog.handleCancel`: not confirmed, canceled. -/
def BaseDialog.handleCancel (b : BaseDialog) : BaseDialog :=
  { b with confirmed := false, canceled := true }

/-- Events consumed by `BaseDialog.Show`. -/
inductive BaseEvent where
  | frame (cancelClicked okClicked : Bool)
  | key (name : KeyName) (state : KeyState)
  | destroy (err : GoError)

/-- One iteration of the `BaseDialog.Show` event loop; Escape-press cancels,
Return-press confirms, destroy returns `(confirmed, canceled, err)`. -/
def BaseDialog.step (b : BaseDialog) (e : BaseEvent) :
    BaseDialog × Option (Bool × Bool × GoError) :=
  match e with
  | .frame cancelClicked okClicked =>
    let b := if cancelClicked then b.handleCancel else b
    let b := if okClicked then b.handleOK else b
    (b, none)
  | .key name state =>
    let b := if name = .escape ∧ state = .press then b.handleCancel else b
    let b := if name = .enter ∧ state = .press then b.handleOK else b
    (b, none)
  | .destroy err => ({ b with done := true }, some (b.confirmed, b.canceled, err))

/-- `BaseDialog.Show` over a finite event trace. -/
def BaseDialog.show (b : BaseDialog) :
    List BaseEvent → Option (Bool × Bool × GoError)
  | [] => if b.done then some (b.confirmed, b.canceled, none) else none
  | e :: es =>
    if b.done then some (b.confirmed, b.canceled, none)
    else
      match b.step e with
      | (_, some r) => some r
      | (b', none) => b'.show es

/-! ## Single-select dialog (single-select revision of internal/dialog/select.go) -/

/-- Shallow embedding of the Go struct `selectDialog` (single-select
revision): choice list, default selection, custom-entry flag, result fields
`selected` and `canceled`, the active index `selectedIndex` (`-1` = no
selection), the free-text editor's text, and the completion flag. -/
structure SingleSelectDialog where
  Title : String
  Label : String
  Description : String
  Choices : List String
  DefaultSelection : String
  AllowCustomEntry : Bool
  selected : String
  canceled : Bool
  selectedIndex : Int
  customInputText : String
  done : Bool

/-- The default-matching loop of the single-select `NewSelectDialog`:
walk the choices from index `i` and return the first index whose choice
equals the default selection, keeping the current value `-1` when none
matches. -/
def firstMatchIdxFrom (defaultSelection : String) : Nat → List String → Int
  | _, [] => -1
  | i, c :: cs =>
    if c = defaultSelection then (i : Int)
    else firstMatchIdxFrom defaultSelection (i + 1) cs

/-- `NewSelectDialog` (single-select revision): `selectedIndex` starts at
`-1` and is set to the first index whose choice equals the default
selection, if any. -/
def NewSingleSelectDialog (title label description : String)
    (choices : List String) (defaultSelection : String)
    (allowCustomEntry : Bool) : SingleSelectDialog :=
  { Title := title
    Label := label
    Description := description
    Choices := choices
    DefaultSelection := defaultSelection
    AllowCustomEntry := allowCustomEntry
    selected := ""
    canceled := false
    selectedIndex := firstMatchIdxFrom defaultSelection 0 choices
    customInputText := ""
    done := false }

/-- `selectDialog.handleOK` (single-select revision): a non-empty custom
entry (when enabled) becomes the result and completes the dialog
immediately; otherwise the choice at `selectedIndex` is returned when the
index is in bounds, the empty string when it is not. -/
def SingleSelectDialog.handleOK (d : SingleSelectDialog) : SingleSelectDialog :=
  if d.AllowCustomEntry ∧ d.customInputText ≠ "" then
    { d with selected := d.customInputText, canceled := false, done := true }
  else
    let sel :=
      if 0 ≤ d.selectedIndex ∧ d.selectedIndex < (d.Choices.length : Int) then
        d.Choices.getD d.selectedIndex.toNat ""
      else ""
    { d with selected := sel, canceled := false }

/-- `selectDialog.handleCancel` (single-select revision). -/
def SingleSelectDialog.handleCancel (d : SingleSelectDialog) :
    SingleSelectDialog :=
  { d with selected := "", canceled := true }

/-- The choice-click pass of `selectDialog.choiceItems` (single-select
revision): the layout loop walks indices `0 .. n-1` in order and sets
`selectedIndex := i` for every index whose button was clicked this frame,
so the last clicked index in loop order wins. -/
def applyChoiceClicks (idx : Int) (n : Nat) (clicks : List Nat) : Int :=
  (List.range n).foldl (fun acc i => if i ∈ clicks then (i : Int) else acc) idx

/-- Events consumed by the single-select `selectDialog.Show`: frames carry
the OK/Cancel click flags, the set of choice buttons clicked this frame,
and the custom-entry editor text after this frame's layout pass. -/
inductive SingleSelectEvent where
  | frame (cancelClicked okClicked : Bool) (choiceClicks : List Nat)
      (newCustomText : String)
  | key (name : KeyName) (state : KeyState)
  | destroy (err : GoError)

/-- One iteration of the single-select `selectDialog.Show` event loop.
Handlers run in source order: cancel click, OK click, then the layout pass
(choice clicks and editor input). The key handler of this dialog kind
handles only Escape — there is no Return case in its `Show`. -/
def SingleSelectDialog.step (d : SingleSelectDialog) (e : SingleSelectEvent) :
    SingleSelectDialog × Option (String × Bool × GoError) :=
  match e with
  | .frame cancelClicked okClicked choiceClicks newCustomText =>
    let d := if cancelClicked then d.handleCancel else d
    let d := if okClicked then d.handleOK else d
    let d :=
      { d with
        selectedIndex :=
          applyChoiceClicks d.selectedIndex d.Choices.length choiceClicks
        customInputText := newCustomText }
    (d, none)
  | .key name state =>
    let d := if name = .escape ∧ state = .press then d.handleCancel else d
    (d, none)
  | .destroy err => ({ d with done := true }, some (d.selected, d.canceled, err))

/-- Single-select `selectDialog.Show` over a finite event trace. A non-empty
custom entry confirmed via OK sets `done`, so the loop can also exit with a
`nil` error without a destroy event. -/
def SingleSelectDialog.show (d : SingleSelectDialog) :
    List SingleSelectEvent → Option (String × Bool × GoError)
  | [] => if d.done then some (d.selected, d.canceled, none) else none
  | e :: es =>
    if d.done then some (d.selected, d.canceled, none)
    else
      match d.step e with
      | (_, some r) => some r
      | (d', none) => d'.show es

/-! ## Multi-select dialog (internal/dialog/select.go) -/

/-- Shallow embedding of the Go struct `selectDialog` (multi-select
revision): one checkbox per choice, result fields `selected` (a string
slice, `nil` modelled as `[]`) and `canceled`. -/
structure MultiSelectDialog where
  Title : String
  Label : String
  Description : String
  Choices : List String
  DefaultSelections : List String
  AllowCustomEntry : Bool
  selected : List String
  canceled : Bool
  checkboxes : List Bool
  customInputText : String
  done : Bool

/-- `NewSelectDialog` (multi-select revision): one checkbox per choice,
checked exactly when the choice occurs among the default selections. -/
def NewMultiSelectDialog (title label description : String)
    (choices defaultSelections : List String) (allowCustomEntry : Bool) :
    MultiSelectDialog :=
  { Title := title
    Label := label
    Description := description
    Choices := choices
    DefaultSelections := defaultSelections
    AllowCustomEntry := allowCustomEntry
    selected := []
    canceled := false
    checkboxes := choices.map (fun c => defaultSelections.contains c)
    customInputText := ""
    done := false }

/-- The collection loop of the multi-select `selectDialog.handleOK`: walk
the checkboxes in order and keep the choice at each checked index. The Go
loop indexes `d.Choices[i]`; by construction both lists have the same
length, so the branch where the choices run out is unreachable there. -/
def collectChecked : List String → List Bool → List String
  | _, [] => []
  | [], _ :: _ => []
  | c :: cs, b :: bs =>
    if b then c :: collectChecked cs bs else collectChecked cs bs

/-- `selectDialog.handleOK` (multi-select revision): collect the checked
choices, then — when custom entry is enabled and non-empty — append the
custom text to the collected list. -/
def MultiSelectDialog.handleOK (d : MultiSelectDialog) : MultiSelectDialog :=
  let selected := collectChecked d.Choices d.checkboxes
  let selected :=
    if d.AllowCustomEntry ∧ d.customInputText ≠ "" then
      selected ++ [d.customInputText]
    else selected
  { d with selected := selected, canceled := false }

/-- `selectDialog.handleCancel` (multi-select revision): the result becomes
the `nil` slice (modelled as `[]`). -/
def MultiSelectDialog.handleCancel (d : MultiSelectDialog) :
    MultiSelectDialog :=
  { d with selected := [], canceled := true }

/-- Toggle the checkbox at each index in `toggles` (a user click on
checkbox `i` during the layout pass flips `checkboxes[i]`). -/
def applyToggles (checks : List Bool) (toggles : List Nat) : List Bool :=
  toggles.foldl (fun cs i => cs.set i (!(cs.getD i false))) checks

/-- Events consumed by the multi-select `selectDialog.Show`: frames carry
the OK/Cancel click flags, the checkbox indices toggled this frame, and the
custom-entry editor text after this frame's layout pass. -/
inductive MultiSelectEvent where
  | frame (cancelClicked okClicked : Bool) (toggles : List Nat)
      (newCustomText : String)
  | key (name : KeyName) (state : KeyState)
  | destroy (err : GoError)

/-- One iteration of the multi-select `selectDialog.Show` event loop.
Handlers run in source order: cancel click, OK click, then the layout pass
(checkbox toggles and editor input). The key handler of this dialog kind
handles only Escape — there is no Return case in its `Show`. -/
def MultiSelectDialog.step (d : MultiSelectDialog) (e : MultiSelectEvent) :
    MultiSelectDialog × Option (List String × Bool × GoError) :=
  match e with
  | .frame cancelClicked okClicked toggles newCustomText =>
    let d := if cancelClicked then d.handleCancel else d
    let d := if okClicked then d.handleOK else d
    let d :=
      { d with
        checkboxes := applyToggles d.checkboxes toggles
        customInputText := newCustomText }
    (d, none)
  | .key name state =>
    let d := if name = .escape ∧ state = .press then d.handleCancel else d
    (d, none)
  | .destroy err => ({ d with done := true }, some (d.selected, d.canceled, err))

/-- Multi-select `selectDialog.Show` over a finite event trace. -/
def MultiSelectDialog.show (d : MultiSelectDialog) :
    List MultiSelectEvent → Option (List String × Bool × GoError)
  | [] => if d.done then some (d.selected, d.canceled, none) else none
  | e :: es =>
    if d.done then some (d.selected, d.canceled, none)
    else
      match d.step e with
      | (_, some r) => some r
      | (d', none) => d'.show es

/-! ## Auxiliary predicates used by the theorems below -/

/-- An input-dialog event that triggers neither the OK nor the Cancel
action in `inputDialog.Show`: a frame with no OK/Cancel button click, or a
key event that is neither an Escape press nor a Return press. A destroy
event is not quiet. -/
def InputEvent.quiet : InputEvent → Bool
  | .frame cancelClicked okClicked _ => !cancelClicked && !okClicked
  | .key name state =>
    !((name == .escape) && (state == .press))
      && !((name == .enter) && (state == .press))
  | .destroy _ => false

/-- A base-dialog event that triggers neither OK nor Cancel in
`BaseDialog.Show`. -/
def BaseEvent.quiet : BaseEvent → Bool
  | .frame cancelClicked okClicked => !cancelClicked && !okClicked
  | .key name state =>
    !((name == .escape) && (state == .press))
      && !((name == .enter) && (state == .press))
  | .destroy _ => false

/-- A single-select event that triggers neither OK nor Cancel in the
single-select `selectDialog.Show`. Its key handler only reacts to Escape
presses, so every other key event — a Return press included — is quiet;
choice clicks and editor input are quiet as well. -/
def SingleSelectEvent.quiet : SingleSelectEvent → Bool
  | .frame cancelClicked okClicked _ _ => !cancelClicked && !okClicked
  | .key name state => !((name == .escape) && (state == .press))
  | .destroy _ => false

/-- A multi-select event that triggers neither OK nor Cancel in the
multi-select `selectDialog.Show`; as for the single-select dialog, every
key event other than an Escape press is quiet. -/
def MultiSelectEvent.quiet : MultiSelectEvent → Bool
  | .frame cancelClicked okClicked _ _ => !cancelClicked && !okClicked
  | .key name state => !((name == .escape) && (state == .press))
  | .destroy _ => false

/-- The index invariant of the single-select dialog: `selectedIndex` is
either `-1` (no selection) or a valid index into `Choices`. -/
def SingleSelectDialog.IndexInv (d : SingleSelectDialog) : Prop :=
  d.selectedIndex = -1 ∨
    (0 ≤ d.selectedIndex ∧ d.selectedIndex < (d.Choices.length : Int))

/-! ## Helper lemmas -/

theorem firstMatchIdxFrom_of_not_mem (a : String) (l : List String) (n : Nat)
    (h : a ∉ l) : firstMatchIdxFrom a n l = -1 := by
  induction l generalizing n with
  | nil => rfl
  | cons c cs ih =>
    simp only [List.mem_cons, not_or] at h
    simp only [firstMatchIdxFrom]
    rw [if_neg (fun hc => h.1 hc.symm)]
    exact ih (n + 1) h.2

theorem firstMatchIdxFrom_bounds (a : String) (l : List String) (n : Nat) :
    firstMatchIdxFrom a n l = -1 ∨
      ((n : Int) ≤ firstMatchIdxFrom a n l ∧
        firstMatchIdxFrom a n l < (n : Int) + l.length) := by
  induction l generalizing n with
  | nil => exact Or.inl rfl
  | cons c cs ih =>
    simp only [firstMatchIdxFrom]
    by_cases hc : c = a
    · rw [if_pos hc]
      right
      constructor
      · exact le_refl _
      · simp only [List.length_cons]
        push_cast
        omega
    · rw [if_neg hc]
      rcases ih (n + 1) with h | ⟨h1, h2⟩
      · exact Or.inl h
      · right
        simp only [List.length_cons]
        push_cast at h1 h2 ⊢
        omega

theorem applyChoiceClicks_bounds (idx : Int) (n : Nat) (clicks : List Nat)
    (h : idx = -1 ∨ (0 ≤ idx ∧ idx < (n : Int))) :
    applyChoiceClicks idx n clicks = -1 ∨
      (0 ≤ applyChoiceClicks idx n clicks ∧
        applyChoiceClicks idx n clicks < (n : Int)) := by
  have key : ∀ (l : List Nat), (∀ i ∈ l, i < n) → ∀ (acc : Int),
      (acc = -1 ∨ (0 ≤ acc ∧ acc < (n : Int))) →
      (l.foldl (fun acc i => if i ∈ clicks then (i : Int) else acc) acc = -1 ∨
        (0 ≤ l.foldl (fun acc i => if i ∈ clicks then (i : Int) else acc) acc ∧
          l.foldl (fun acc i => if i ∈ clicks then (i : Int) else acc) acc
            < (n : Int))) := by
    intro l
    induction l with
    | nil => intro _ acc hacc; exact hacc
    | cons j js ih =>
      intro hl acc hacc
      simp only [List.foldl_cons]
      apply ih (fun i hi => hl i (List.mem_cons_of_mem _ hi))
      by_cases hj : j ∈ clicks
      · rw [if_pos hj]
        right
        have := hl j (List.mem_cons_self _ _)
        omega
      · rw [if_neg hj]
        exact hacc
  exact key (List.range n) (fun i hi => List.mem_range.mp hi) idx h

theorem SingleSelectDialog.handleOK_selectedIndex (d : SingleSelectDialog) :
    d.handleOK.selectedIndex = d.selectedIndex := by
  unfold SingleSelectDialog.handleOK
  split <;> rfl

theorem SingleSelectDialog.handleOK_Choices (d : SingleSelectDialog) :
    d.handleOK.Choices = d.Choices := by
  unfold SingleSelectDialog.handleOK
  split <;> rfl

theorem collectChecked_eq_nil (cs : List String) (bs : List Bool)
    (h : ∀ b ∈ bs, b = false) : collectChecked cs bs = [] := by
  induction bs generalizing cs with
  | nil => cases cs <;> rfl
  | cons b bs ih =>
    cases cs with
    | nil => rfl
    | cons c cs' =>
      have hb : b = false := h b (List.mem_cons_self _ _)
      simp only [collectChecked, hb, Bool.false_eq_true, if_false]
      exact ih cs' (fun x hx => h x (List.mem_cons_of_mem _ hx))

theorem InputDialog.quiet_step_input (d : InputDialog) (e : InputEvent)
    (hq : e.quiet = true)
    (h : d.result = "" ∧ d.canceled = false ∧ d.done = false) :
    ((d.step e).1.result = "" ∧ (d.step e).1.canceled = false ∧
      (d.step e).1.done = false) ∧ (d.step e).2.2 = none := by
  obtain ⟨h1, h2, h3⟩ := h
  cases e with
  | frame c o t =>
    simp only [InputEvent.quiet, Bool.and_eq_true, Bool.not_eq_true'] at hq
    simp [InputDialog.step, hq.1, hq.2, h1, h2, h3]
  | key n s =>
    have hesc : ¬(n = KeyName.escape ∧ s = KeyState.press) := by
      rintro ⟨ha, hb⟩
      simp [InputEvent.quiet, ha, hb] at hq
    have hent : ¬(n = KeyName.enter ∧ s = KeyState.press) := by
      rintro ⟨ha, hb⟩
      simp [InputEvent.quiet, ha, hb] at hq
    simp [InputDialog.step, hesc, hent, h1, h2, h3]
  | destroy err => simp [InputEvent.quiet] at hq

theorem BaseDialog.quiet_step_base (b : BaseDialog) (e : BaseEvent)
    (hq : e.quiet = true)
    (h : b.confirmed = false ∧ b.canceled = false ∧ b.done = false) :
    ((b.step e).1.confirmed = false ∧ (b.step e).1.canceled = false ∧
      (b.step e).1.done = false) ∧ (b.step e).2 = none := by
  obtain ⟨h1, h2, h3⟩ := h
  cases e with
  | frame c o =>
    simp only [BaseEvent.quiet, Bool.and_eq_true, Bool.not_eq_true'] at hq
    simp [BaseDialog.step, hq.1, hq.2, h1, h2, h3]
  | key n s =>
    have hesc : ¬(n = KeyName.escape ∧ s = KeyState.press) := by
      rintro ⟨ha, hb⟩
      simp [BaseEvent.quiet, ha, hb] at hq
    have hent : ¬(n = KeyName.enter ∧ s = KeyState.press) := by
      rintro ⟨ha, hb⟩
      simp [BaseEvent.quiet, ha, hb] at hq
    simp [BaseDialog.step, hesc, hent, h1, h2, h3]
  | destroy err => simp [BaseEvent.quiet] at hq

theorem SingleSelectDialog.quiet_step_single (d : SingleSelectDialog)
    (e : SingleSelectEvent) (hq : e.quiet = true)
    (h : d.selected = "" ∧ d.canceled = false ∧ d.done = false) :
    ((d.step e).1.selected = "" ∧ (d.step e).1.canceled = false ∧
      (d.step e).1.done = false) ∧ (d.step e).2 = none := by
  obtain ⟨h1, h2, h3⟩ := h
  cases e with
  | frame c o clicks t =>
    simp only [SingleSelectEvent.quiet, Bool.and_eq_true, Bool.not_eq_true']
      at hq
    simp [SingleSelectDialog.step, hq.1, hq.2, h1, h2, h3]
  | key n s =>
    have hesc : ¬(n = KeyName.escape ∧ s = KeyState.press) := by
      rintro ⟨ha, hb⟩
      simp [SingleSelectEvent.quiet, ha, hb] at hq
    simp [SingleSelectDialog.step, hesc, h1, h2, h3]
  | destroy err => simp [SingleSelectEvent.quiet] at hq

theorem MultiSelectDialog.quiet_step_multi (d : MultiSelectDialog)
    (e : MultiSelectEvent) (hq : e.quiet = true)
    (h : d.selected = [] ∧ d.canceled = false ∧ d.done = false) :
    ((d.step e).1.selected = [] ∧ (d.step e).1.canceled = false ∧
      (d.step e).1.done = false) ∧ (d.step e).2 = none := by
  obtain ⟨h1, h2, h3⟩ := h
  cases e with
  | frame c o toggles t =>
    simp only [MultiSelectEvent.quiet, Bool.and_eq_true, Bool.not_eq_true']
      at hq
    simp [MultiSelectDialog.step, hq.1, hq.2, h1, h2, h3]
  | key n s =>
    have hesc : ¬(n = KeyName.escape ∧ s = KeyState.press) := by
      rintro ⟨ha, hb⟩
      simp [MultiSelectEvent.quiet, ha, hb] at hq
    simp [MultiSelectDialog.step, hesc, h1, h2, h3]
  | destroy err => simp [MultiSelectEvent.quiet] at hq

theorem InputDialog.show_quiet_destroy_input (d : InputDialog)
    (es : List InputEvent) (hq : ∀ e ∈ es, e.quiet = true)
    (h : d.result = "" ∧ d.canceled = false ∧ d.done = false) (err : GoError) :
    d.show (es ++ [.destroy err]) = some ("", false, err) := by
  induction es generalizing d with
  | nil =>
    simp [InputDialog.show, InputDialog.step, h.1, h.2.1, h.2.2]
  | cons e es ih =>
    have hstep := InputDialog.quiet_step_input d e (hq e (List.mem_cons_self _ _)) h
    rcases hde : d.step e with ⟨d', c, r⟩
    rw [hde] at hstep
    rcases hstep with ⟨h', hr⟩
    subst hr
    simp only [List.cons_append, InputDialog.show]
    rw [if_neg (by simp [h.2.2]), hde]
    exact ih d' (fun x hx => hq x (List.mem_cons_of_mem _ hx)) h'

theorem BaseDialog.show_quiet_destroy_base (b : BaseDialog)
    (es : List BaseEvent) (hq : ∀ e ∈ es, e.quiet = true)
    (h : b.confirmed = false ∧ b.canceled = false ∧ b.done = false)
    (err : GoError) :
    b.show (es ++ [.destroy err]) = some (false, false, err) := by
  induction es generalizing b with
  | nil =>
    simp [BaseDialog.show, BaseDialog.step, h.1, h.2.1, h.2.2]
  | cons e es ih =>
    have hstep := BaseDialog.quiet_step_base b e (hq e (List.mem_cons_self _ _)) h
    rcases hde : b.step e with ⟨b', r⟩
    rw [hde] at hstep
    rcases hstep with ⟨h', hr⟩
    subst hr
    simp only [List.cons_append, BaseDialog.show]
    rw [if_neg (by simp [h.2.2]), hde]
    exact ih b' (fun x hx => hq x (List.mem_cons_of_mem _ hx)) h'

theorem SingleSelectDialog.show_quiet_destroy_single (d : SingleSelectDialog)
    (es : List SingleSelectEvent) (hq : ∀ e ∈ es, e.quiet = true)
    (h : d.selected = "" ∧ d.canceled = false ∧ d.done = false)
    (err : GoError) :
    d.show (es ++ [.destroy err]) = some ("", false, err) := by
  induction es generalizing d with
  | nil =>
    simp [SingleSelectDialog.show, SingleSelectDialog.step, h.1, h.2.1, h.2.2]
  | cons e es ih =>
    have hstep :=
      SingleSelectDialog.quiet_step_single d e (hq e (List.mem_cons_self _ _)) h
    rcases hde : d.step e with ⟨d', r⟩
    rw [hde] at hstep
    rcases hstep with ⟨h', hr⟩
    subst hr
    simp only [List.cons_append, SingleSelectDialog.show]
    rw [if_neg (by simp [h.2.2]), hde]
    exact ih d' (fun x hx => hq x (List.mem_cons_of_mem _ hx)) h'

theorem MultiSelectDialog.show_quiet_destroy_multi (d : MultiSelectDialog)
    (es : List MultiSelectEvent) (hq : ∀ e ∈ es, e.quiet = true)
    (h : d.selected = [] ∧ d.canceled = false ∧ d.done = false)
    (err : GoError) :
    d.show (es ++ [.destroy err]) = some ([], false, err) := by
  induction es generalizing d with
  | nil =>
    simp [MultiSelectDialog.show, MultiSelectDialog.step, h.1, h.2.1, h.2.2]
  | cons e es ih =>
    have hstep :=
      MultiSelectDialog.quiet_step_multi d e (hq e (List.mem_cons_self _ _)) h
    rcases hde : d.step e with ⟨d', r⟩
    rw [hde] at hstep
    rcases hstep with ⟨h', hr⟩
    subst hr
    simp only [List.cons_append, MultiSelectDialog.show]
    rw [if_neg (by simp [h.2.2]), hde]
    exact ih d' (fun x hx => hq x (List.mem_cons_of_mem _ hx)) h'

/-! ## Claims -/

/-- C1 (code bug): when OK is triggered on the input dialog and the
validator rejects the current field text, `handleOK` does return early
with the result, canceled and done fields unchanged — but
`inputDialog.Show` executes `w.Perform(system.ActionClose)`
unconditionally right after `handleOK`, for the OK button click and the
Enter key press alike, so the rejected OK still requests the window
close. Once the window system answers with the destroy event, `Show`
returns `("", false, err)`: the dialog does not remain Running until a
valid value is supplied, contradicting the validator's documented purpose
(and making `handleOK`'s pending validation-feedback TODO unreachable). -/
theorem C1_rejected_ok_still_closes_dialog (d : InputDialog)
    (v : String → GoError) (hv : d.Validate = some v)
    (hrej : v d.textInputText ≠ none)
    (hrun : d.result = "" ∧ d.canceled = false ∧ d.done = false) :
    d.handleOK = d ∧
    (d.step (.key .enter .press)).2.1 = true ∧
    (∀ t, (d.step (.frame false true t)).2.1 = true) ∧
    (∀ err, d.show [.key .enter .press, .destroy err]
        = some ("", false, err)) := by
  have hmain : d.handleOK = d := by
    simp only [InputDialog.handleOK, hv]
    cases hvv : v d.textInputText with
    | none => exact absurd hvv hrej
    | some e => rfl
  refine ⟨hmain, by simp [InputDialog.step], fun t => by simp [InputDialog.step],
    fun err => ?_⟩
  simp [InputDialog.show, InputDialog.step, hmain, hrun.1, hrun.2.1, hrun.2.2]

/-- Witness for C1: a concrete freshly constructed input dialog whose
validator rejects its text "abc"; the rejected Enter-triggered OK requests
the close, and the ensuing destroy makes `Show` return `("", false, nil)`
although no valid value was ever supplied. -/
theorem C1_rejected_ok_still_closes_dialog_witness :
    (NewInputDialog "t" "l" "d" "abc" (some fun _ => some "too short")).show
        [.key .enter .press, .destroy none] = some ("", false, none) :=
  (C1_rejected_ok_still_closes_dialog _ (fun _ => some "too short") rfl
    (by simp [NewInputDialog]) ⟨rfl, rfl, rfl⟩).2.2.2 none

/-- C2 counterexample: a multi-select dialog with custom entry enabled,
choice "A" checked (via its default) and custom text "X"; after OK the
result is `["A", "X"]`, so the checked list item "A" appears in the result
alongside the custom text and the result is not the custom text alone —
refuting the claim that a non-empty custom entry overrides the list
selection for every select dialog variant. -/
theorem C2_custom_overrides_counterexample :
    "A" ∈ (((NewMultiSelectDialog "t" "l" "" ["A"] ["A"] true).step
        (.frame false false [] "X")).1.handleOK).selected ∧
      (((NewMultiSelectDialog "t" "l" "" ["A"] ["A"] true).step
        (.frame false false [] "X")).1.handleOK).selected ≠ ["X"] := by
  decide

/-- C2 (amended): when custom entry is enabled and the custom text is
non-empty at OK time, the single-select dialog returns the custom text
alone (it overrides any list selection), while the multi-select dialog
appends the custom text after the checked choices — the checked items do
appear in the result alongside it; both variants report canceled=false. -/
theorem C2_custom_entry_amended (ds : SingleSelectDialog)
    (hs1 : ds.AllowCustomEntry = true) (hs2 : ds.customInputText ≠ "")
    (dm : MultiSelectDialog)
    (hm1 : dm.AllowCustomEntry = true) (hm2 : dm.customInputText ≠ "") :
    (ds.handleOK.selected = ds.customInputText ∧
      ds.handleOK.canceled = false) ∧
    (dm.handleOK.selected
        = collectChecked dm.Choices dm.checkboxes ++ [dm.customInputText] ∧
      dm.handleOK.canceled = false) := by
  constructor
  · simp [SingleSelectDialog.handleOK, hs1, hs2]
  · simp [MultiSelectDialog.handleOK, hm1, hm2]

/-- Witness for C2 (amended): concrete single- and multi-select dialogs
with a selection and custom text "X". -/
theorem C2_custom_entry_amended_witness :
    (((NewSingleSelectDialog "t" "l" "" ["A"] "A" true).step
        (.frame false false [] "X")).1.handleOK.selected = "X" ∧
      ((NewSingleSelectDialog "t" "l" "" ["A"] "A" true).step
        (.frame false false [] "X")).1.handleOK.canceled = false) ∧
    (((NewMultiSelectDialog "t" "l" "" ["A"] ["A"] true).step
        (.frame false false [] "X")).1.handleOK.selected = ["A", "X"] ∧
      ((NewMultiSelectDialog "t" "l" "" ["A"] ["A"] true).step
        (.frame false false [] "X")).1.handleOK.canceled = false) :=
  C2_custom_entry_amended _ (by decide) (by decide) _ (by decide) (by decide)

/-- C3: for every dialog kind, the Cancel action — the `handleCancel`
handler itself, an Escape key press, or a Cancel button click frame —
yields canceled=true and the empty/zero result (empty string for input and
single-select, empty (nil) list for multi-select, confirmed=false for the
base dialog), regardless of in-progress edits or prior selections. -/
theorem C3_cancel_yields_canceled_and_zero_result :
    (∀ (d : InputDialog) (t : String),
        (d.handleCancel.canceled = true ∧ d.handleCancel.result = "") ∧
        ((d.step (.key .escape .press)).1.canceled = true ∧
          (d.step (.key .escape .press)).1.result = "") ∧
        ((d.step (.frame true false t)).1.canceled = true ∧
          (d.step (.frame true false t)).1.result = "")) ∧
    (∀ (d : SingleSelectDialog) (clicks : List Nat) (t : String),
        (d.handleCancel.canceled = true ∧ d.handleCancel.selected = "") ∧
        ((d.step (.key .escape .press)).1.canceled = true ∧
          (d.step (.key .escape .press)).1.selected = "") ∧
        ((d.step (.frame true false clicks t)).1.canceled = true ∧
          (d.step (.frame true false clicks t)).1.selected = "")) ∧
    (∀ (d : MultiSelectDialog) (toggles : List Nat) (t : String),
        (d.handleCancel.canceled = true ∧ d.handleCancel.selected = []) ∧
        ((d.step (.key .escape .press)).1.canceled = true ∧
          (d.step (.key .escape .press)).1.selected = []) ∧
        ((d.step (.frame true false toggles t)).1.canceled = true ∧
          (d.step (.frame true false toggles t)).1.selected = [])) ∧
    (∀ (b : BaseDialog),
        (b.handleCancel.canceled = true ∧ b.handleCancel.confirmed = false) ∧
        ((b.step (.key .escape .press)).1.canceled = true ∧
          (b.step (.key .escape .press)).1.confirmed = false) ∧
        ((b.step (.frame true false)).1.canceled = true ∧
          (b.step (.frame true false)).1.confirmed = false)) := by
  refine ⟨fun d t => ?_, fun d clicks t => ?_, fun d toggles t => ?_,
    fun b => ?_⟩
  · simp [InputDialog.step, InputDialog.handleCancel, InputDialog.handleOK]
  · simp [SingleSelectDialog.step, SingleSelectDialog.handleCancel]
  · simp [MultiSelectDialog.step, MultiSelectDialog.handleCancel]
  · simp [BaseDialog.step, BaseDialog.handleCancel, BaseDialog.handleOK]

/-- C4: for every dialog kind, a destroy event reported by the window
moves the dialog to the terminal Closed state (`done := true`) and makes
`Show` return the last computed result together with the canceled flag,
passing the destroy event's termination error through to the caller
unchanged. -/
theorem C4_destroy_closes_and_propagates_error :
    (∀ (d : InputDialog) (err : GoError) (es : List InputEvent),
        (d.step (.destroy err)).1.done = true ∧
        (d.done = false →
          d.show (.destroy err :: es) = some (d.result, d.canceled, err))) ∧
    (∀ (d : SingleSelectDialog) (err : GoError) (es : List SingleSelectEvent),
        (d.step (.destroy err)).1.done = true ∧
        (d.done = false →
          d.show (.destroy err :: es) = some (d.selected, d.canceled, err))) ∧
    (∀ (d : MultiSelectDialog) (err : GoError) (es : List MultiSelectEvent),
        (d.step (.destroy err)).1.done = true ∧
        (d.done = false →
          d.show (.destroy err :: es) = some (d.selected, d.canceled, err))) ∧
    (∀ (b : BaseDialog) (err : GoError) (es : List BaseEvent),
        (b.step (.destroy err)).1.done = true ∧
        (b.done = false →
          b.show (.destroy err :: es) = some (b.confirmed, b.canceled, err))) := by
  refine ⟨fun d err es => ⟨rfl, fun h => ?_⟩, fun d err es => ⟨rfl, fun h => ?_⟩,
    fun d err es => ⟨rfl, fun h => ?_⟩, fun b err es => ⟨rfl, fun h => ?_⟩⟩
  · simp [InputDialog.show, InputDialog.step, h]
  · simp [SingleSelectDialog.show, SingleSelectDialog.step, h]
  · simp [MultiSelectDialog.show, MultiSelectDialog.step, h]
  · simp [BaseDialog.show, BaseDialog.step, h]

/-- Witness for C4: each freshly constructed dialog kind, destroyed with a
concrete window-system error, returns its zero result, canceled=false, and
that same error. -/
theorem C4_destroy_closes_and_propagates_error_witness :
    (NewInputDialog "t" "l" "" "x" none).show [.destroy (some "boom")]
        = some ("", false, some "boom") ∧
    (NewSingleSelectDialog "t" "l" "" ["A"] "A" false).show
        [.destroy (some "boom")] = some ("", false, some "boom") ∧
    (NewMultiSelectDialog "t" "l" "" ["A"] [] false).show
        [.destroy (some "boom")] = some ([], false, some "boom") ∧
    (NewBaseDialog 0 0 "t" "l" "").show [.destroy (some "boom")]
        = some (false, false, some "boom") :=
  ⟨(C4_destroy_closes_and_propagates_error.1 _ (some "boom") []).2 rfl,
    (C4_destroy_closes_and_propagates_error.2.1 _ (some "boom") []).2 rfl,
    (C4_destroy_closes_and_propagates_error.2.2.1 _ (some "boom") []).2 rfl,
    (C4_destroy_closes_and_propagates_error.2.2.2 _ (some "boom") []).2 rfl⟩

/-- C5 counterexample: in the single-select dialog constructed with choice
list `["A"]` and default "A", a Return (Enter) key press does not trigger
the OK action: running the dialog with an Enter press followed by window
destruction returns the empty string, whereas the OK action would have
produced "A" — refuting the claim that Enter triggers OK for every dialog
kind. -/
theorem C5_enter_key_counterexample :
    (NewSingleSelectDialog "t" "l" "" ["A"] "A" false).show
        [.key .enter .press, .destroy none] = some ("", false, none) ∧
    (NewSingleSelectDialog "t" "l" "" ["A"] "A" false).handleOK.selected
        = "A" := by
  decide

/-- C5 (amended): the OK action is triggered both by an OK button click
and by an Enter (Return) key press for the input and base dialogs; for the
select dialogs (single- and multi-select), only the OK button click
triggers OK — their event loops ignore every key event other than an
Escape press, Enter included. -/
theorem C5_ok_triggers_amended :
    (∀ (d : InputDialog), (d.step (.key .enter .press)).1 = d.handleOK) ∧
    (∀ (d : InputDialog) (t : String),
        (d.step (.frame false true t)).1.result = d.handleOK.result ∧
        (d.step (.frame false true t)).1.canceled = d.handleOK.canceled) ∧
    (∀ (b : BaseDialog), (b.step (.key .enter .press)).1 = b.handleOK ∧
        (b.step (.frame false true)).1 = b.handleOK) ∧
    (∀ (d : SingleSelectDialog) (n : KeyName) (s : KeyState),
        ¬(n = .escape ∧ s = .press) → (d.step (.key n s)).1 = d) ∧
    (∀ (d : SingleSelectDialog) (clicks : List Nat) (t : String),
        (d.step (.frame false true clicks t)).1.selected
            = d.handleOK.selected ∧
        (d.step (.frame false true clicks t)).1.canceled
            = d.handleOK.canceled) ∧
    (∀ (d : MultiSelectDialog) (n : KeyName) (s : KeyState),
        ¬(n = .escape ∧ s = .press) → (d.step (.key n s)).1 = d) ∧
    (∀ (d : MultiSelectDialog) (toggles : List Nat) (t : String),
        (d.step (.frame false true toggles t)).1.selected
            = d.handleOK.selected ∧
        (d.step (.frame false true toggles t)).1.canceled
            = d.handleOK.canceled) := by
  refine ⟨fun d => ?_, fun d t => ?_, fun b => ⟨?_, ?_⟩,
    fun d n s hn => ?_, fun d clicks t => ?_, fun d n s hn => ?_,
    fun d toggles t => ?_⟩
  · simp [InputDialog.step]
  · simp [InputDialog.step]
  · simp [BaseDialog.step]
  · simp [BaseDialog.step]
  · simp [SingleSelectDialog.step, hn]
  · simp [SingleSelectDialog.step]
  · simp [MultiSelectDialog.step, hn]
  · simp [MultiSelectDialog.step]

/-- Witness for C5 (amended): a concrete non-Escape key press (an Enter
press) leaves a concrete single-select dialog unchanged. -/
theorem C5_ok_triggers_amended_witness :
    ((NewSingleSelectDialog "t" "l" "" ["A"] "A" false).step
        (.key .enter .press)).1
      = NewSingleSelectDialog "t" "l" "" ["A"] "A" false :=
  C5_ok_triggers_amended.2.2.2.1 _ .enter .press (by decide)

/-- C6: defaults are matched by string value against the supplied choice
list at construction time: the single-select `NewSelectDialog` keeps
`selectedIndex = -1` whenever the default selection does not occur in the
choice list; the multi-select `NewSelectDialog` sets the checkbox at each
index to whether that choice occurs among the default selections, so when
no default value occurs in the choice list every checkbox is left false. -/
theorem C6_defaults_matched_at_construction :
    (∀ (title label desc : String) (choices : List String) (dflt : String)
        (allow : Bool), dflt ∉ choices →
        (NewSingleSelectDialog title label desc choices dflt
          allow).selectedIndex = -1) ∧
    (∀ (title label desc : String) (choices defaults : List String)
        (allow : Bool) (i : Nat), i < choices.length →
        (NewMultiSelectDialog title label desc choices defaults
            allow).checkboxes.getD i false
          = defaults.contains (choices.getD i "")) ∧
    (∀ (title label desc : String) (choices defaults : List String)
        (allow : Bool), (∀ dft ∈ defaults, dft ∉ choices) →
        ∀ b ∈ (NewMultiSelectDialog title label desc choices defaults
            allow).checkboxes, b = false) := by
  refine ⟨fun title label desc choices dflt allow h => ?_,
    fun title label desc choices defaults allow i h => ?_,
    fun title label desc choices defaults allow h b hb => ?_⟩
  · simp only [NewSingleSelectDialog]
    exact firstMatchIdxFrom_of_not_mem dflt choices 0 h
  · simp only [NewMultiSelectDialog]
    obtain ⟨v, hv⟩ : ∃ v, choices[i]? = some v :=
      ⟨_, List.getElem?_eq_getElem h⟩
    simp [List.getD_eq_getElem?_getD, List.getElem?_map, hv]
  · simp only [NewMultiSelectDialog, List.mem_map] at hb
    obtain ⟨c, hc, hcb⟩ := hb
    have hcd : c ∉ defaults := fun hmem => h c hmem hc
    rw [← hcb]
    simpa using hcd

/-- Witness for C6: with choices `["A", "B"]`, the unmatched single-select
default "Z" leaves `selectedIndex = -1`, the matched per-index
characterization holds at index 0, and unmatched multi-select defaults
`["Z"]` leave every checkbox false. -/
theorem C6_defaults_matched_at_construction_witness :
    (NewSingleSelectDialog "t" "l" "" ["A", "B"] "Z" false).selectedIndex
        = -1 ∧
    (NewMultiSelectDialog "t" "l" "" ["A", "B"] ["B"] false).checkboxes.getD
        0 false = (["B"].contains "A") ∧
    ∀ b ∈ (NewMultiSelectDialog "t" "l" "" ["A", "B"] ["Z"]
        false).checkboxes, b = false :=
  ⟨C6_defaults_matched_at_construction.1 "t" "l" "" ["A", "B"] "Z" false
      (by decide),
    C6_defaults_matched_at_construction.2.1 "t" "l" "" ["A", "B"] ["B"]
      false 0 (by decide),
    C6_defaults_matched_at_construction.2.2 "t" "l" "" ["A", "B"] ["Z"]
      false (by decide)⟩

/-- C7: in the multi-select dialog, triggering OK with every checkbox
unchecked and the custom entry empty or disabled commits the empty (nil)
list with canceled=false, and driving `Show` with such an OK click followed
by a destroy event without error returns `([], false, nil)` — an empty
list, not an error. -/
theorem C7_multi_select_empty_ok (d : MultiSelectDialog)
    (hchecks : ∀ b ∈ d.checkboxes, b = false)
    (hcustom : d.AllowCustomEntry = false ∨ d.customInputText = "") :
    d.handleOK.selected = [] ∧ d.handleOK.canceled = false ∧
    (d.done = false →
      d.show [.frame false true [] d.customInputText, .destroy none]
        = some ([], false, none)) := by
  have hcond : ¬(d.AllowCustomEntry = true ∧ d.customInputText ≠ "") := by
    rcases hcustom with h | h <;> simp [h]
  have hsel : d.handleOK.selected = [] := by
    simp only [MultiSelectDialog.handleOK]
    rw [if_neg hcond]
    exact collectChecked_eq_nil _ _ hchecks
  have hcanc : d.handleOK.canceled = false := by
    simp [MultiSelectDialog.handleOK]
  have hdone : d.handleOK.done = d.done := by
    simp [MultiSelectDialog.handleOK]
  refine ⟨hsel, hcanc, fun h => ?_⟩
  simp [MultiSelectDialog.show, MultiSelectDialog.step, h, hdone, hsel, hcanc]

/-- Witness for C7: a concrete multi-select dialog with two choices, no
defaults and no custom entry; OK then destroy returns the empty list with
canceled=false and a `nil` error. -/
theorem C7_multi_select_empty_ok_witness :
    (NewMultiSelectDialog "t" "l" "" ["A", "B"] [] false).show
        [.frame false true [] "", .destroy none] = some ([], false, none) :=
  (C7_multi_select_empty_ok _ (by decide) (Or.inr rfl)).2.2 rfl

/-- C8: the single-select dialog constructed with choices
`["A", "B", "C"]`, default "B" and no custom entry: after a frame in which
the user clicks choice "C" (index 2) and a frame in which OK is clicked,
the dialog returns result "C" with canceled=false. -/
theorem C8_click_C_then_OK_returns_C :
    (NewSingleSelectDialog "t" "l" "" ["A", "B", "C"] "B" false).show
        [.frame false false [2] "", .frame false true [] "", .destroy none]
      = some ("C", false, none) := by
  decide

/-- C9: the single-select index invariant `selectedIndex = -1 ∨
0 ≤ selectedIndex < length Choices` holds after construction and is
preserved by every event-loop step (choice-click updates included); in
`handleOK` the guard `0 ≤ selectedIndex < length Choices` guarantees the
list access is in bounds (`selectedIndex.toNat < length Choices`) and
returns the guarded element, while a failed guard yields the empty string
instead of any list access. -/
theorem C9_selectedIndex_invariant :
    (∀ (title label desc : String) (choices : List String) (dflt : String)
        (allow : Bool),
        (NewSingleSelectDialog title label desc choices dflt
          allow).IndexInv) ∧
    (∀ (d : SingleSelectDialog) (e : SingleSelectEvent),
        d.IndexInv → (d.step e).1.IndexInv) ∧
    (∀ (d : SingleSelectDialog),
        0 ≤ d.selectedIndex → d.selectedIndex < (d.Choices.length : Int) →
        d.selectedIndex.toNat < d.Choices.length ∧
        (¬(d.AllowCustomEntry = true ∧ d.customInputText ≠ "") →
          d.handleOK.selected = d.Choices.getD d.selectedIndex.toNat "")) ∧
    (∀ (d : SingleSelectDialog),
        ¬(0 ≤ d.selectedIndex ∧ d.selectedIndex < (d.Choices.length : Int)) →
        ¬(d.AllowCustomEntry = true ∧ d.customInputText ≠ "") →
        d.handleOK.selected = "") := by
  refine ⟨fun title label desc choices dflt allow => ?_, fun d e h => ?_,
    fun d h1 h2 => ⟨by omega, fun hc => ?_⟩, fun d hg hc => ?_⟩
  · simp only [SingleSelectDialog.IndexInv, NewSingleSelectDialog]
    rcases firstMatchIdxFrom_bounds dflt choices 0 with h | ⟨h1, h2⟩
    · exact Or.inl h
    · right
      constructor <;> push_cast at h1 h2 ⊢ <;> omega
  · cases e with
    | frame c o clicks t =>
      have hidx : ((if o = true then
            (if c = true then d.handleCancel else d).handleOK
          else (if c = true then d.handleCancel else d)).selectedIndex)
            = d.selectedIndex := by
        cases c <;> cases o <;>
          simp [SingleSelectDialog.handleCancel,
            SingleSelectDialog.handleOK_selectedIndex]
      have hch : ((if o = true then
            (if c = true then d.handleCancel else d).handleOK
          else (if c = true then d.handleCancel else d)).Choices)
            = d.Choices := by
        cases c <;> cases o <;>
          simp [SingleSelectDialog.handleCancel,
            SingleSelectDialog.handleOK_Choices]
      simp only [SingleSelectDialog.step, SingleSelectDialog.IndexInv,
        hidx, hch]
      exact applyChoiceClicks_bounds d.selectedIndex d.Choices.length
        clicks h
    | key n s =>
      by_cases hc : (n = KeyName.escape ∧ s = KeyState.press)
      · simpa [SingleSelectDialog.step, hc, SingleSelectDialog.IndexInv,
          SingleSelectDialog.handleCancel] using h
      · simpa [SingleSelectDialog.step, hc] using h
    | destroy err =>
      simpa [SingleSelectDialog.step, SingleSelectDialog.IndexInv] using h
  · simp only [SingleSelectDialog.handleOK]
    rw [if_neg hc, if_pos ⟨h1, h2⟩]
  · simp only [SingleSelectDialog.handleOK]
    rw [if_neg hc, if_neg hg]

/-- Witness for C9: the invariant holds for a concrete construction, is
preserved by a concrete choice-click frame, and the guarded access is in
bounds for a concrete dialog with a valid selection. -/
theorem C9_selectedIndex_invariant_witness :
    SingleSelectDialog.IndexInv
      ((NewSingleSelectDialog "t" "l" "" ["A", "B"] "B" false).step
        (.frame false false [0] "")).1 ∧
    ((NewSingleSelectDialog "t" "l" "" ["A", "B"] "B"
        false).selectedIndex.toNat < 2 ∧
      (NewSingleSelectDialog "t" "l" "" ["A", "B"] "B"
        false).handleOK.selected = "B") :=
  ⟨C9_selectedIndex_invariant.2.1 _ _
      (C9_selectedIndex_invariant.1 "t" "l" "" ["A", "B"] "B" false),
    (C9_selectedIndex_invariant.2.2.1 _ (by decide) (by decide)).1,
    ((C9_selectedIndex_invariant.2.2.1 _ (by decide) (by decide)).2
      (by decide) : _)⟩

/-- C10: for every dialog kind, if the window is destroyed after a trace
of events in which neither the OK nor the Cancel action was ever triggered
(no OK/Cancel button click, no Escape or Return press handled by that
dialog's loop), `Show` returns the zero-valued result — empty string for
input and single-select, empty (nil) list for multi-select,
confirmed=false for the base dialog — together with canceled=false and the
destroy event's error: closing the window without confirming is not
reported as canceled. -/
theorem C10_close_without_action_not_canceled :
    (∀ (title label desc dft : String) (val : Option (String → GoError))
        (es : List InputEvent) (err : GoError),
        (∀ e ∈ es, e.quiet = true) →
        (NewInputDialog title label desc dft val).show (es ++ [.destroy err])
          = some ("", false, err)) ∧
    (∀ (title label desc : String) (choices : List String) (dflt : String)
        (allow : Bool) (es : List SingleSelectEvent) (err : GoError),
        (∀ e ∈ es, e.quiet = true) →
        (NewSingleSelectDialog title label desc choices dflt allow).show
          (es ++ [.destroy err]) = some ("", false, err)) ∧
    (∀ (title label desc : String) (choices defaults : List String)
        (allow : Bool) (es : List MultiSelectEvent) (err : GoError),
        (∀ e ∈ es, e.quiet = true) →
        (NewMultiSelectDialog title label desc choices defaults allow).show
          (es ++ [.destroy err]) = some ([], false, err)) ∧
    (∀ (width height : Int) (title label desc : String)
        (es : List BaseEvent) (err : GoError),
        (∀ e ∈ es, e.quiet = true) →
        (NewBaseDialog width height title label desc).show
          (es ++ [.destroy err]) = some (false, false, err)) := by
  refine ⟨fun title label desc dft val es err hq => ?_,
    fun title label desc choices dflt allow es err hq => ?_,
    fun title label desc choices defaults allow es err hq => ?_,
    fun width height title label desc es err hq => ?_⟩
  · exact InputDialog.show_quiet_destroy_input _ es hq ⟨rfl, rfl, rfl⟩ err
  · exact SingleSelectDialog.show_quiet_destroy_single _ es hq ⟨rfl, rfl, rfl⟩ err
  · exact MultiSelectDialog.show_quiet_destroy_multi _ es hq ⟨rfl, rfl, rfl⟩ err
  · exact BaseDialog.show_quiet_destroy_base _ es hq ⟨rfl, rfl, rfl⟩ err

/-- Witness for C10: concrete quiet traces — typing in the input editor,
an Enter press in the single-select dialog, a checkbox toggle in the
multi-select dialog, a bare destroy for the base dialog — all end with the
zero result, canceled=false, and the destroy event's error. -/
theorem C10_close_without_action_not_canceled_witness :
    (NewInputDialog "t" "l" "" "abc" none).show
        [.frame false false "zzz", .destroy none] = some ("", false, none) ∧
    (NewSingleSelectDialog "t" "l" "" ["A"] "A" true).show
        [.key .enter .press, .destroy none] = some ("", false, none) ∧
    (NewMultiSelectDialog "t" "l" "" ["A"] ["A"] false).show
        [.frame false false [0] "", .destroy none] = some ([], false, none) ∧
    (NewBaseDialog 0 0 "t" "l" "").show [.destroy (some "gone")]
        = some (false, false, some "gone") :=
  ⟨C10_close_without_action_not_canceled.1 "t" "l" "" "abc" none
      [.frame false false "zzz"] none (by decide),
    C10_close_without_action_not_canceled.2.1 "t" "l" "" ["A"] "A" true
      [.key .enter .press] none (by decide),
    C10_close_without_action_not_canceled.2.2.1 "t" "l" "" ["A"] ["A"] false
      [.frame false false [0] ""] none (by decide),
    C10_close_without_action_not_canceled.2.2.2 0 0 "t" "l" "" []
      (some "gone") (by decide)⟩
